import Mathlib

/-!
Shallow embedding of the document-ingestion and retrieval pipeline of the
Knowledge Assistant RAG backend.

Embedded source files:
* src/src/core/vector_store.py  (Qdrant adapter: collection naming,
  provisioning, upsert, search)
* src/src/core/gemini_llm.py    (Gemini embedding batch with zero-vector
  fallback, prompt formatting)
* src/src/core/llm.py           (prompt formatting used by main.py)
* src/src/core/processing.py    (parsing dispatch and chunking)
* src/src/main.py               (upload_file and query_knowledge_base
  endpoint pipelines)

The Qdrant vector database is an external collaborator (the qdrant_client
package, not part of this repository).  It is modelled as an explicit
in-memory store with the documented semantics the adapter relies on:
collections are keyed by name, points are keyed by integer id, and an
upsert with an already-present id replaces that point.  A Boolean flag
`failing` models a store-level connectivity outage under which every
primitive client operation raises.  Similarity scores are modelled as
exact integer dot products over integer-component vectors (a stand-in
numeric type for the floating-point vectors of the source; no verified
claim depends on numeric values) and search results are not re-ordered: no
verified claim depends on the ranking order of search results, so the
descending-cosine ordering of the external store is not modelled.

Fallible external effects of the pipelines (file save, hashing, SQL
statements, the embedding model, the language model, file removal) are
passed in as explicit Except-valued environment fields, so one theorem
quantifying over the environment covers every control path of the
endpoint code.
-/

namespace RagPipeline

/-- An embedding vector: a finite sequence of (exact) numbers. -/
abbrev Vec := List Int

/-- The payload stored with each vector, as built by upload_file in
src/src/main.py (lines 356-364): chunk text, source filename, owning
user id and upload timestamp. -/
structure Payload where
  text : String
  source : String
  user_id : String
  upload_date : String
  deriving Repr, DecidableEq

/-- A stored vector record: id, vector and payload. -/
structure Point where
  id : Nat
  vec : Vec
  payload : Payload
  deriving Repr, DecidableEq

/-- One Qdrant collection: a fixed dimensionality and the stored points.
The point list never holds two points with the same id (upserts replace). -/
structure Collection where
  dim : Nat
  points : List Point
  deriving Repr, DecidableEq

/-- Model of the external Qdrant client: an association list of named
collections plus a connectivity flag.  When `failing` is true every
primitive operation raises, modelling a store-level outage. -/
structure QdrantClient where
  store : List (String × Collection)
  failing : Bool
  deriving Repr, DecidableEq

/-- Errors raised by the modelled Qdrant client. -/
inductive QdrantErr where
  | notFound : String → QdrantErr
  | connectionError : QdrantErr
  deriving Repr, DecidableEq

/-- Replace the binding of `name` in the store, or append it. -/
def storeSet (s : List (String × Collection)) (name : String) (col : Collection) :
    List (String × Collection) :=
  if s.any (fun kv => kv.1 == name) then
    s.map (fun kv => if kv.1 == name then (name, col) else kv)
  else s ++ [(name, col)]

/-- Primitive client.get_collection: raises on outage or missing collection. -/
def QdrantClient.getCollection (c : QdrantClient) (name : String) :
    Except QdrantErr Collection :=
  if c.failing then .error .connectionError
  else
    match c.store.lookup name with
    | some col => .ok col
    | none => .error (.notFound name)

/-- Primitive client.create_collection with a given vector size.  The
pipelines only call it after get_collection failed, so the
already-exists error of the real client is not modelled. -/
def QdrantClient.createCollection (c : QdrantClient) (name : String) (dim : Nat) :
    Except QdrantErr QdrantClient :=
  if c.failing then .error .connectionError
  else .ok { c with store := storeSet c.store name ⟨dim, []⟩ }

/-- Insert a point, replacing any stored point with the same id
(documented Qdrant upsert semantics). -/
def upsertPoint (ps : List Point) (p : Point) : List Point :=
  if ps.any (fun q => q.id == p.id) then
    ps.map (fun q => if q.id == p.id then p else q)
  else ps ++ [p]

/-- Primitive client.upsert of a batch of points into a collection. -/
def QdrantClient.upsertBatch (c : QdrantClient) (name : String) (pts : List Point) :
    Except QdrantErr QdrantClient :=
  if c.failing then .error .connectionError
  else
    match c.store.lookup name with
    | none => .error (.notFound name)
    | some col =>
        .ok { c with
              store := storeSet c.store name { col with points := pts.foldl upsertPoint col.points } }

/-- A search hit: payload (the real client may return none) and score. -/
structure ScoredPoint where
  payload : Option Payload
  score : Int
  deriving Repr, DecidableEq

/-- Dot product, the modelled similarity score. -/
def dot (a b : Vec) : Int := (List.zipWith (fun x y => x * y) a b).sum

/-- Primitive client.search: scored points of the collection, truncated to
`limit`.  Ranking order is not modelled (see the module comment). -/
def QdrantClient.searchPoints (c : QdrantClient) (name : String) (qv : Vec) (limit : Nat) :
    Except QdrantErr (List ScoredPoint) :=
  if c.failing then .error .connectionError
  else
    match c.store.lookup name with
    | none => .error (.notFound name)
    | some col => .ok ((col.points.map (fun p => ⟨some p.payload, dot p.vec qv⟩)).take limit)

/-- Embedded from src/src/core/vector_store.py, get_user_collection_name:
the user UUID rendered as a string with hyphens replaced by underscores,
prefixed by "user_". -/
def get_user_collection_name (user_id : String) : String :=
  "user_" ++ String.mk (user_id.toList.map (fun c => if c = '-' then '_' else c))

/-- Embedded from src/src/core/vector_store.py, collection_exists:
get_collection with every exception (including connectivity failures)
mapped to false. -/
def collection_exists (c : QdrantClient) (name : String) : Bool :=
  match c.getCollection name with
  | .ok _ => true
  | .error _ => false

/-- Embedded from src/src/core/vector_store.py, ensure_user_collection_exists:
try get_collection; on any failure create the collection with the given
vector size; return the collection name (state-passing for the client). -/
def ensure_user_collection_exists (c : QdrantClient) (user_id : String) (vector_size : Nat) :
    Except QdrantErr (QdrantClient × String) :=
  let name := get_user_collection_name user_id
  match c.getCollection name with
  | .ok _ => .ok (c, name)
  | .error _ =>
      match c.createCollection name vector_size with
      | .ok c2 => .ok (c2, name)
      | .error e => .error e

/-- Embedded from src/src/core/vector_store.py, upsert_vectors: the point
ids are list(range(len(vectors))), i.e. 0,1,...,n-1 afresh for every
batch, zipped with the parallel vector and payload sequences. -/
def upsert_vectors (c : QdrantClient) (name : String) (vectors : List Vec)
    (payloads : List Payload) : Except QdrantErr QdrantClient :=
  let pts := (List.zip (List.range vectors.length) (List.zip vectors payloads)).map
    (fun x => ⟨x.1, x.2.1, x.2.2⟩)
  c.upsertBatch name pts

/-- Embedded from src/src/core/vector_store.py, search_vectors: return []
when the collection does not exist or holds zero points; otherwise
search; the enclosing try/except maps ANY raised error to [] as well, so
the function is total and has no error channel. -/
def search_vectors (c : QdrantClient) (name : String) (qv : Vec) (limit : Nat) :
    List ScoredPoint :=
  if collection_exists c name then
    match c.getCollection name with
    | .error _ => []
    | .ok col =>
        if col.points.length == 0 then []
        else
          match c.searchPoints name qv limit with
          | .ok rs => rs
          | .error _ => []
  else []

/-- Modelled from the spec: the Chunker of section 4.2.  The code under
src delegates chunking wholly to langchain RecursiveCharacterTextSplitter
(an external library that is not part of this repository), so the
splitter is modelled from the spec words: overlapping fixed-size
character windows stepping by windowSize - overlap (the spec natural
boundary preference is explicitly approximate and best-effort, not a
contract, so the hard character cut realises it), and empty or
whitespace-only input yields the empty chunk sequence.  `slide` produces
the windows over the character list; the step is forced positive so the
function is total. -/
def slideFuel (w step : Nat) : Nat → List Char → List (List Char)
  | _, [] => []
  | 0, _ => []
  | fuel + 1, c :: cs =>
      if cs.length + 1 ≤ w then [c :: cs]
      else ((c :: cs).take w) :: slideFuel w step fuel ((c :: cs).drop (max 1 step))

/-- The windows of slideFuel, started with enough fuel (the input length
bounds the number of windows, each recursive call dropping at least one
character); the fuel argument only makes the recursion structural. -/
def slide (w step : Nat) (l : List Char) : List (List Char) :=
  slideFuel w step l.length l

/-- The whitespace set of python str.strip. -/
def isPySpace (c : Char) : Bool :=
  c == '\x20' || c == '\t' || c == '\n' || c == '\r' || c == '\x0b' || c == '\x0c'

/-- Python str.strip: drop whitespace from both ends (the standard
String.trim of the host language is not used so that the model stays
close to the python semantics and fully evaluable). -/
def pyStrip (s : String) : String :=
  String.mk (((s.toList.dropWhile isPySpace).reverse.dropWhile isPySpace).reverse)

/-- Modelled from the spec: split_text with explicit window and overlap
parameters (the langchain splitter object is configured with chunk_size
and chunk_overlap and then asked to split). -/
def split_text (windowSize overlap : Nat) (text : String) : List String :=
  if pyStrip text = "" then []
  else (slide windowSize (windowSize - overlap) text.toList).map (fun cs => String.mk cs)

/-- Embedded from src/src/core/processing.py, chunk_text: split with the
fixed parameters chunk_size=1000, chunk_overlap=200. -/
def chunk_text (text : String) : List String :=
  split_text 1000 200 text

/-- Split a character list at its LAST dot: returns (prefix, suffix
starting with that dot), or none when no dot occurs. -/
def afterLastDot : List Char → Option (List Char × List Char)
  | [] => none
  | c :: rest =>
      match afterLastDot rest with
      | some (b, e) => some (c :: b, e)
      | none => if c = '.' then some ([], c :: rest) else none

/-- Embedded from os.path.splitext composed with str.lower as used in
src/src/main.py line 277: the lowercased extension from the last dot,
empty when there is no dot or when every character before the last dot
is itself a dot (splitext treats leading dots as part of the name). -/
def extension_of (filename : String) : String :=
  match afterLastDot filename.toList with
  | none => ""
  | some (bef, ext) =>
      if bef.any (fun c => c != '.') then String.mk (ext.map Char.toLower) else ""

/-- The supported extension list of src/src/main.py line 278. -/
def supported_types : List String := [".pdf", ".txt", ".docx"]

/-- Embedded from src/src/core/gemini_llm.py, get_embeddings: one
embedding call per text; a call that raises is logged and replaced by a
768-dimensional zero vector (the comment in the source reads: return a
zero vector as fallback).  `embedOne` models the external
genai.embed_content call. -/
def get_embeddings (embedOne : String → Except Unit (List Int)) (texts : List String) :
    List (List Int) :=
  texts.map (fun t =>
    match embedOne t with
    | .ok v => v
    | .error _ => List.replicate 768 0)

/-- One row of the DocumentMetadata relational table as created by
upload_file in src/src/main.py (lines 375-381; upload_date is the server
timestamp column of src/src/core/database.py). -/
structure DocMeta where
  user_id : String
  filename : String
  original_size : Nat
  chunks_count : Nat
  file_hash : String
  upload_date : String
  deriving Repr, DecidableEq

/-- The mutable world of one request: whether the temporary uploaded
file for this request exists on disk, the relational document-metadata
table, the vector store, and the request timestamp (datetime.utcnow is
modelled as one constant per request). -/
structure World where
  fsTempExists : Bool
  docs : List DocMeta
  vs : QdrantClient
  now : String
  deriving Repr, DecidableEq

/-- The UploadResponse model of src/src/core/models.py. -/
structure UploadResponse where
  filename : String
  message : String
  num_chunks_stored : Nat
  deriving Repr, DecidableEq

/-- The typed failures upload_file can raise (src/src/core/exceptions.py),
restricted to those reachable from the embedded pipeline. -/
inductive UploadError where
  | queryValidation : String → UploadError
  | fileProcessing : String → UploadError
  | invalidFileType : String → UploadError
  | emptyFile : String → UploadError
  | llm : String → UploadError
  | vectorStore : String → UploadError
  deriving Repr, DecidableEq

/-- The fallible external effects consulted by upload_file, in request
order: shutil.copyfileobj into the temp file, calculate_file_hash, the
duplicate-check SELECT (dedupOk false means that statement raised),
parse_document, embedding_model.encode on the chunk batch, the metadata
INSERT/commit (insertOk false means the database was unavailable for
that statement; the INSERT can ALSO fail deterministically on the UNIQUE
file_hash constraint, which is modelled in uploadProcess itself because
it depends on the table state), and os.remove of the temp file. -/
structure UploadEnv where
  save : Except Unit Unit
  hashFile : Except Unit String
  dedupOk : Bool
  parse : Except Unit String
  encode : List String → Except Unit (List Vec)
  insertOk : Bool
  removeTemp : Except Unit Unit

/-- The finally block of upload_file (src/src/main.py lines 405-412): if
the temp file exists, try to remove it; a failing removal is only logged. -/
def cleanup_temp (env : UploadEnv) (w : World) : World :=
  if w.fsTempExists then
    match env.removeTemp with
    | .ok _ => { w with fsTempExists := false }
    | .error _ => w
  else w

/-- The duplicate-upload message of src/src/main.py line 318 (the source
interpolates the stored filename and formatted upload date). -/
def dupMessage (d : DocMeta) : String :=
  "File already exists (uploaded as \x27" ++ d.filename ++ "\x27 on " ++ d.upload_date ++ ")"

/-- The success message of src/src/main.py line 394. -/
def uploadSuccessMessage : String :=
  "Successfully uploaded, processed, and stored in your personal knowledge base."

/-- Embedded from src/src/main.py, upload_file lines 297-404: the body of
the try block guarded by the temp-file finally.  Hash, best-effort
duplicate check (a raising SELECT or a MultipleResultsFound from
scalar_one_or_none is caught, logged and ignored), parse, empty check,
chunk, embed, ensure the user collection, upsert, then best-effort
metadata insert (a failure is rolled back, logged, and does not fail the
upload). -/
def uploadProcess (env : UploadEnv) (uid filename : String) (fileSize : Nat)
    (embedding_size : Nat) (w : World) : Except UploadError UploadResponse × World :=
  match env.hashFile with
  | .error _ => (.error (.fileProcessing "Failed to calculate file hash"), w)
  | .ok file_hash =>
      let dup : Option DocMeta :=
        if env.dedupOk then
          match w.docs.filter (fun d => d.user_id == uid && d.file_hash == file_hash) with
          | [d] => some d
          | _ => none
        else none
      match dup with
      | some d => (.ok ⟨filename, dupMessage d, d.chunks_count⟩, w)
      | none =>
          match env.parse with
          | .error _ => (.error (.fileProcessing "Failed to parse document"), w)
          | .ok text =>
              if pyStrip text = "" then (.error (.emptyFile filename), w)
              else
                let chunks := chunk_text text
                if chunks = [] then (.error (.emptyFile filename), w)
                else
                  match env.encode chunks with
                  | .error _ => (.error (.llm "Failed to generate embeddings"), w)
                  | .ok embeddings =>
                      match ensure_user_collection_exists w.vs uid embedding_size with
                      | .error _ =>
                          (.error (.vectorStore "Failed to create user collection"), w)
                      | .ok (vs1, collName) =>
                          let payloads := chunks.map (fun ch => Payload.mk ch filename uid w.now)
                          match upsert_vectors vs1 collName embeddings payloads with
                          | .error _ =>
                              (.error (.vectorStore "Failed to store vectors"),
                               { w with vs := vs1 })
                          | .ok vs2 =>
                              let w2 := { w with vs := vs2 }
                              -- The documents table declares file_hash UNIQUE
                              -- (src/src/core/database.py line 75), so the INSERT
                              -- raises IntegrityError whenever ANY row — of any
                              -- user — already carries this content hash; that
                              -- failure, like an unavailable database, is rolled
                              -- back and logged, and the upload still succeeds
                              -- (main.py lines 385-388).
                              if !env.insertOk
                                  || w.docs.any (fun d => d.file_hash == file_hash) then
                                (.ok ⟨filename, uploadSuccessMessage, chunks.length⟩, w2)
                              else
                                (.ok ⟨filename, uploadSuccessMessage, chunks.length⟩,
                                 { w2 with docs :=
                                     w2.docs ++
                                       [⟨uid, filename, fileSize, chunks.length, file_hash, w.now⟩] })

/-- uploadProcess with the finally block applied to its resulting world. -/
def uploadBody (env : UploadEnv) (uid filename : String) (fileSize : Nat)
    (embedding_size : Nat) (w : World) : Except UploadError UploadResponse × World :=
  let r := uploadProcess env uid filename fileSize embedding_size w
  (r.1, cleanup_temp env r.2)

/-- Embedded from src/src/main.py, upload_file lines 259-412: filename
validation, 10MB size limit, extension check against supported_types,
save of the temporary file (open creates the file, then copyfileobj may
still fail; that failure path precedes the try/finally so no cleanup
runs on it), then the guarded processing body. -/
def upload_file (env : UploadEnv) (uid filename : String) (fileSize : Nat)
    (embedding_size : Nat) (w : World) : Except UploadError UploadResponse × World :=
  if filename = "" then (.error (.queryValidation "No filename provided"), w)
  else if 10 * 1024 * 1024 < fileSize then
    (.error (.fileProcessing "File size exceeds 10MB limit"), w)
  else if supported_types.contains (extension_of filename) then
    let w1 := { w with fsTempExists := true }
    match env.save with
    | .error _ => (.error (.fileProcessing "Unexpected error saving file"), w1)
    | .ok _ => uploadBody env uid filename fileSize embedding_size w1
  else (.error (.invalidFileType (extension_of filename)), w)

/-- A cited source document of the query response (src/src/main.py lines
503-511). -/
structure SourceDoc where
  source : String
  text : String
  score : Int
  deriving Repr, DecidableEq

/-- The QueryResponse value as constructed by query_knowledge_base. -/
structure QueryResponse where
  answer : String
  source_documents : List SourceDoc
  deriving Repr, DecidableEq

/-- The typed failures query_knowledge_base can raise. -/
inductive QueryError where
  | llm : String → QueryError
  | vectorStore : String → QueryError
  deriving Repr, DecidableEq

/-- The fallible external effects consulted by query_knowledge_base:
embedding_model.encode on the query, the document-count SELECT (countOk
false means that statement raised), and the language-model call. -/
structure QueryEnv where
  encodeQuery : Except Unit Vec
  countOk : Bool
  llmCall : String → Except Unit String

/-- Informational message of src/src/main.py line 458. -/
def noDocsMessage : String :=
  "You haven\x27t uploaded any documents yet. Please upload some documents to build your knowledge base before asking questions."

/-- Informational message of src/src/main.py line 460. -/
def noMatchMessage : String :=
  "I couldn\x27t find any relevant information in your knowledge base to answer your question. Please try rephrasing your query or upload more relevant documents."

/-- Informational message of src/src/main.py line 463 (count query failed). -/
def noMatchFallbackMessage : String :=
  "I couldn\x27t find any relevant information in your knowledge base to answer your question. Please try rephrasing your query or upload relevant documents."

/-- Informational message of src/src/main.py line 481 (everything filtered). -/
def allFilteredMessage : String :=
  "I couldn\x27t find any relevant information in your personal knowledge base to answer your question. Please try rephrasing your query or upload more relevant documents."

/-- Embedded from src/src/core/llm.py, format_prompt: the grounding
instruction, the newline-joined context texts, and the verbatim query.
The pipeline only passes payload-bearing results (guaranteed by the
ownership filter), so a missing payload contributes the empty string. -/
def format_prompt (query : String) (context : List ScoredPoint) : String :=
  let context_str := String.intercalate "\n" (context.map (fun item =>
    match item.payload with
    | some p => p.text
    | none => ""))
  "**Instruction**:\nAnswer the user\x27s query based *only* on the provided context.\nIf the context does not contain the answer, state that you cannot answer the question with the given information.\nDo not use any prior knowledge.\n\n**Context**:\n"
    ++ context_str ++ "\n\n**Query**:\n" ++ query ++ "\n\n**Answer**:\n"

/-- The citation truncation of src/src/main.py line 508: texts longer
than 500 characters are cut to 500 and suffixed with an ellipsis. -/
def truncate_text (t : String) : String :=
  if 500 < t.length then (t.take 500) ++ "..." else t

/-- The defense-in-depth ownership filter of src/src/main.py lines
470-476: keep a result only when it has a payload whose user_id equals
the requesting user; anything else is logged and dropped. -/
def filter_owned (uid : String) (results : List ScoredPoint) : List ScoredPoint :=
  results.filter (fun r =>
    match r.payload with
    | some p => p.user_id == uid
    | none => false)

/-- Embedded from src/src/main.py, query_knowledge_base lines 414-530:
derive the user collection name, embed the query, search (search_vectors
is total, so the VectorStoreError wrapper of lines 442-444 has no
trigger from the search call and is not represented), on zero raw
results report the informational message chosen by the best-effort
document count, otherwise apply the ownership filter, report
informationally when everything was filtered, then prompt, call the
model, reject empty answers, and assemble the citations from the
surviving results. -/
def query_knowledge_base (env : QueryEnv) (w : World) (uid : String) (query : String) :
    Except QueryError QueryResponse :=
  let user_collection_name := get_user_collection_name uid
  match env.encodeQuery with
  | .error _ => .error (.llm "Failed to encode query")
  | .ok qv =>
      let search_results := search_vectors w.vs user_collection_name qv 3
      if search_results = [] then
        let message :=
          if env.countOk then
            if (w.docs.filter (fun d => d.user_id == uid)).length = 0 then noDocsMessage
            else noMatchMessage
          else noMatchFallbackMessage
        .ok ⟨message, []⟩
      else
        let filtered_results := filter_owned uid search_results
        if filtered_results = [] then .ok ⟨allFilteredMessage, []⟩
        else
          let prompt := format_prompt query filtered_results
          match env.llmCall prompt with
          | .error _ => .error (.llm "Failed to generate response")
          | .ok answer =>
              if pyStrip answer = "" then .error (.llm "LLM returned empty response")
              else
                let source_documents := filtered_results.filterMap (fun r =>
                  match r.payload with
                  | some p => some (SourceDoc.mk p.source (truncate_text p.text) r.score)
                  | none => none)
                .ok ⟨answer, source_documents⟩

/-! ## Concrete fixtures used by counterexamples and witnesses -/

/-- A first payload fixture. -/
def pA : Payload := ⟨"alpha", "a.txt", "u1", "t0"⟩

/-- A second payload fixture. -/
def pB : Payload := ⟨"beta", "b.txt", "u1", "t1"⟩

/-- A healthy client holding one empty collection for user u1. -/
def clientEmptyU1 : QdrantClient := ⟨[("user_u1", ⟨2, []⟩)], false⟩

/-- The point list of the user_u1 collection after upserting one batch of
one vector and then a second batch of one vector (the scenario of two
successive single-vector ingestions into the same namespace). -/
def twoBatchUpserts : Option (List Point) :=
  match upsert_vectors clientEmptyU1 "user_u1" [[1, 0]] [pA] with
  | .error _ => none
  | .ok c1 =>
      match upsert_vectors c1 "user_u1" [[0, 1]] [pB] with
      | .error _ => none
      | .ok c2 => (c2.store.lookup "user_u1").map Collection.points

/-- C2: upsert_vectors numbers every batch 0,1,...,n-1 afresh, so the
second single-vector batch reuses id 0 and REPLACES the point written by
the first batch: after upserting 1 + 1 vectors the namespace holds one
point (carrying the second payload), not two. -/
theorem upsert_second_batch_overwrites_first :
    twoBatchUpserts = some [⟨0, [0, 1], pB⟩] := by decide

/-- An embedding backend whose every call raises (provider outage). -/
def failingEmbedder : String → Except Unit (List Int) := fun _ => .error ()

/-- C3: get_embeddings of src/src/core/gemini_llm.py does not fail the
batch when an embedding call raises: it substitutes a 768-dimensional
zero vector for the failed item and returns successfully, so the
ingestion proceeds and stores the zero vector. -/
theorem gemini_embedding_failure_yields_zero_vector :
    get_embeddings failingEmbedder ["hello"] = [List.replicate 768 0] := by rfl

/-- A payload fixture for the outage scenario. -/
def outagePayload : Payload := ⟨"gamma", "c.txt", "u1", "t0"⟩

/-- A client holding a provisioned, non-empty collection for user u1,
but with the store connectivity down. -/
def outageClient : QdrantClient :=
  ⟨[("user_u1", ⟨2, [⟨0, [1, 0], outagePayload⟩]⟩)], true⟩

/-- A world for the outage scenario: the user owns one recorded document. -/
def outageWorld : World := ⟨false, [⟨"u1", "c.txt", 5, 1, "h1", "t0"⟩], outageClient, "t1"⟩

/-- A query environment whose embedding, count and model calls all work. -/
def outageQueryEnv : QueryEnv := ⟨.ok [1, 0], true, fun _ => .ok "answer"⟩

/-- C6 counterexample: against an existing, NON-empty namespace, a store
connectivity failure during search is not surfaced as a VectorStoreError:
search_vectors swallows it into the empty result sequence, and the query
endpoint then returns the informational no-results success response. -/
theorem store_failure_swallowed_counterexample :
    search_vectors outageClient "user_u1" [1, 0] 3 = [] ∧
    query_knowledge_base outageQueryEnv outageWorld "u1" "q" = .ok ⟨noMatchMessage, []⟩ := by
  refine ⟨by rfl, by rfl⟩

/-- C6 amended: a store-level failure during search is caught by the
adapter catch-all and returned as the empty result sequence,
indistinguishable from the nonexistent-or-empty-namespace case; the
query endpoint then answers with an informational success response and
an empty source list instead of raising a VectorStoreError. -/
theorem store_failure_yields_empty_results (env : QueryEnv) (w : World) (uid query : String)
    (qv : Vec) (hfail : w.vs.failing = true) (henc : env.encodeQuery = .ok qv) :
    search_vectors w.vs (get_user_collection_name uid) qv 3 = [] ∧
    ∃ msg, query_knowledge_base env w uid query = .ok ⟨msg, []⟩ := by
  have hs : ∀ name limit, search_vectors w.vs name qv limit = [] := by
    intro name limit
    unfold search_vectors collection_exists QdrantClient.getCollection
    simp [hfail]
  refine ⟨hs _ _, ?_⟩
  unfold query_knowledge_base
  rw [henc]
  simp [hs]

/-- C6 amended, witness at the concrete outage fixture. -/
theorem store_failure_yields_empty_results_witness :
    outageWorld.vs.failing = true ∧
    outageQueryEnv.encodeQuery = .ok [1, 0] ∧
    (search_vectors outageWorld.vs (get_user_collection_name "u1") [1, 0] 3 = [] ∧
      ∃ msg, query_knowledge_base outageQueryEnv outageWorld "u1" "q" = .ok ⟨msg, []⟩) :=
  ⟨by rfl, by rfl,
    store_failure_yields_empty_results outageQueryEnv outageWorld "u1" "q" [1, 0]
      (by rfl) (by rfl)⟩

/-- C5: searching a namespace that was never provisioned, or one that is
provisioned but holds zero points, returns the empty result sequence
(and, the return type being a plain list, search_vectors has no error
channel at all on a healthy store). -/
theorem search_missing_or_empty_namespace (c : QdrantClient) (name : String) (qv : Vec)
    (limit : Nat) (hfail : c.failing = false)
    (hcase : c.store.lookup name = none ∨
      ∃ col, c.store.lookup name = some col ∧ col.points = []) :
    search_vectors c name qv limit = [] := by
  unfold search_vectors collection_exists QdrantClient.getCollection
  rcases hcase with h | ⟨col, h, hpts⟩
  · simp [hfail, h]
  · simp [hfail, h, hpts]

/-- A healthy client holding a single empty collection for user u2. -/
def clientEmptyU2 : QdrantClient := ⟨[("user_u2", ⟨2, []⟩)], false⟩

/-- C5 witness: the provisioned-but-empty case at a concrete client, and
the never-provisioned case at the same client under another name. -/
theorem search_missing_or_empty_namespace_witness :
    clientEmptyU2.failing = false ∧
    clientEmptyU2.store.lookup "user_u2" = some ⟨2, []⟩ ∧
    search_vectors clientEmptyU2 "user_u2" [(1 : Int), 0] 3 = [] :=
  ⟨by rfl, by rfl,
    search_missing_or_empty_namespace clientEmptyU2 "user_u2" [(1 : Int), 0] 3 (by rfl)
      (Or.inr ⟨⟨2, []⟩, by rfl, rfl⟩)⟩

/-- Every member of filter_owned has a payload owned by uid. -/
theorem mem_filter_owned {uid : String} {rs : List ScoredPoint} {r : ScoredPoint}
    (h : r ∈ filter_owned uid rs) :
    r ∈ rs ∧ ∃ p, r.payload = some p ∧ p.user_id = uid := by
  unfold filter_owned at h
  rw [List.mem_filter] at h
  refine ⟨h.1, ?_⟩
  rcases hp : r.payload with _ | p
  · rw [hp] at h
    exact absurd h.2 (by simp)
  · rw [hp] at h
    exact ⟨p, rfl, by simpa using h.2⟩

/-- C1: whenever the query endpoint returns a successful response, every
source document in it originates from a search-result payload whose
user_id equals the requesting user; payloads with a differing user_id
have been discarded (non-fatally) before citation assembly. -/
theorem query_sources_owned_by_requester (env : QueryEnv) (w : World) (uid query : String)
    (resp : QueryResponse)
    (hok : query_knowledge_base env w uid query = .ok resp) :
    ∀ d ∈ resp.source_documents, ∃ qv r p,
      env.encodeQuery = .ok qv ∧
      r ∈ search_vectors w.vs (get_user_collection_name uid) qv 3 ∧
      r.payload = some p ∧ p.user_id = uid ∧
      d.source = p.source ∧ d.text = truncate_text p.text ∧ d.score = r.score := by
  intro d hd
  unfold query_knowledge_base at hok
  cases henc : env.encodeQuery with
  | error e => rw [henc] at hok; cases hok
  | ok qv =>
      rw [henc] at hok
      simp only [] at hok
      by_cases hsr : search_vectors w.vs (get_user_collection_name uid) qv 3 = []
      · rw [if_pos hsr] at hok
        cases hok
        cases hd
      · rw [if_neg hsr] at hok
        by_cases hfr : filter_owned uid (search_vectors w.vs (get_user_collection_name uid) qv 3) = []
        · rw [if_pos hfr] at hok
          cases hok
          cases hd
        · rw [if_neg hfr] at hok
          cases hllm : env.llmCall (format_prompt query
              (filter_owned uid (search_vectors w.vs (get_user_collection_name uid) qv 3))) with
          | error e => rw [hllm] at hok; cases hok
          | ok answer =>
              rw [hllm] at hok
              simp only [] at hok
              by_cases hans : pyStrip answer = ""
              · rw [if_pos hans] at hok; cases hok
              · rw [if_neg hans] at hok
                cases hok
                rw [List.mem_filterMap] at hd
                obtain ⟨r, hr, hf⟩ := hd
                obtain ⟨hrs, p, hp, hpu⟩ := mem_filter_owned hr
                rw [hp] at hf
                cases hf
                exact ⟨qv, r, p, rfl, hrs, hp, hpu, rfl, rfl, rfl⟩

/-- Rebuilding a world after resetting its temp-file flag to its known
value gives back the same world. -/
theorem world_reset_eq (w : World) (hfs : w.fsTempExists = false) :
    (⟨false, w.docs, w.vs, w.now⟩ : World) = w := by
  cases w
  simp_all

/-- cleanup_temp clears the temp-file flag whenever removal succeeds. -/
theorem cleanup_temp_removes (env : UploadEnv) (w : World)
    (hrm : env.removeTemp = .ok ()) :
    (cleanup_temp env w).fsTempExists = false := by
  unfold cleanup_temp
  by_cases h : w.fsTempExists = true
  · rw [if_pos h, hrm]
  · rw [if_neg h]
    simpa using h

/-- C9 amended: on every exit path of upload_file that follows a
SUCCESSFUL save of the temporary file (success, duplicate short-circuit,
and every typed failure of the processing body), the temporary file is
removed before the request completes, provided the filesystem removal
itself succeeds; paths that fail before the save never create the file. -/
theorem temp_file_removed_after_successful_save (env : UploadEnv) (uid filename : String)
    (fileSize embedding_size : Nat) (w : World)
    (hfs : w.fsTempExists = false)
    (hsave : env.save = .ok ())
    (hrm : env.removeTemp = .ok ()) :
    (upload_file env uid filename fileSize embedding_size w).2.fsTempExists = false := by
  unfold upload_file
  by_cases h1 : filename = ""
  · rw [if_pos h1]; exact hfs
  · rw [if_neg h1]
    by_cases h2 : 10 * 1024 * 1024 < fileSize
    · rw [if_pos h2]; exact hfs
    · rw [if_neg h2]
      by_cases h3 : supported_types.contains (extension_of filename) = true
      · rw [if_pos h3, hsave]
        exact cleanup_temp_removes env _ hrm
      · rw [if_neg h3]; exact hfs

/-- An environment whose every effect succeeds (hash h1, text "hello",
every chunk embedded as the vector [1, 0]). -/
def okUploadEnv : UploadEnv :=
  ⟨.ok (), .ok "h1", true, .ok "hello",
   fun chs => .ok (chs.map (fun _ => ([1, 0] : Vec))), true, .ok ()⟩

/-- A fresh world: no temp file, no documents, an empty healthy store. -/
def freshWorld : World := ⟨false, [], ⟨[], false⟩, "t0"⟩

/-- C9 amended, witness: a concrete successful upload ends with the temp
file removed. -/
theorem temp_file_removed_after_successful_save_witness :
    freshWorld.fsTempExists = false ∧ okUploadEnv.save = .ok () ∧
    okUploadEnv.removeTemp = .ok () ∧
    (upload_file okUploadEnv "u1" "a.txt" 5 2 freshWorld).2.fsTempExists = false :=
  ⟨rfl, rfl, rfl,
    temp_file_removed_after_successful_save okUploadEnv "u1" "a.txt" 5 2 freshWorld
      rfl rfl rfl⟩

/-- An environment identical to okUploadEnv except that copying the
upload into the temporary file fails (after open has created the file). -/
def saveFailEnv : UploadEnv :=
  ⟨.error (), .ok "h1", true, .ok "hello",
   fun chs => .ok (chs.map (fun _ => ([1, 0] : Vec))), true, .ok ()⟩

/-- C9 counterexample: a failure while saving the uploaded file itself
raises before the try/finally block is entered, so the partially written
temporary file is NOT removed: the request ends in failure with the file
still on disk. -/
theorem temp_file_leaks_on_save_failure :
    (upload_file saveFailEnv "u1" "a.txt" 5 2 freshWorld).1
        = .error (.fileProcessing "Unexpected error saving file") ∧
    (upload_file saveFailEnv "u1" "a.txt" 5 2 freshWorld).2.fsTempExists = true :=
  ⟨by rfl, by rfl⟩

/-- The schema invariant of the documents table: file_hash is declared
UNIQUE (src/src/core/database.py line 75), so every table state the
program can commit has pairwise-distinct content hashes.  The INSERT
step of uploadProcess enforces it, and upload_preserves_hashesDistinct
below shows it is inductive, so it holds of all reachable worlds. -/
def hashesDistinct (docs : List DocMeta) : Prop :=
  docs.Pairwise (fun a b => ¬ a.file_hash = b.file_hash)

/-- Under the UNIQUE file_hash invariant, the per-user duplicate lookup
for the hash of a document d recorded for that user returns exactly [d]:
scalar_one_or_none finds precisely one row (MultipleResultsFound is
impossible). -/
theorem filter_dup_eq_singleton (docs : List DocMeta) (uid fh : String) (d : DocMeta)
    (huniq : hashesDistinct docs)
    (hd : d ∈ docs) (hdu : d.user_id = uid) (hdh : d.file_hash = fh) :
    docs.filter (fun dd => dd.user_id == uid && dd.file_hash == fh) = [d] := by
  induction docs with
  | nil => cases hd
  | cons x xs ih =>
      unfold hashesDistinct at huniq
      rw [List.pairwise_cons] at huniq
      rcases List.mem_cons.mp hd with rfl | hmem
      · have hpred : (d.user_id == uid && d.file_hash == fh) = true := by
          simp [hdu, hdh]
        rw [List.filter_cons, if_pos hpred]
        have htail : xs.filter (fun dd => dd.user_id == uid && dd.file_hash == fh) = [] := by
          rw [List.filter_eq_nil_iff]
          intro a ha
          have hne := huniq.1 a ha
          simp only [Bool.and_eq_true, beq_iff_eq, not_and]
          intro _ hah
          exact hne (hdh.trans hah.symm)
        rw [htail]
      · have hxne : ¬ (x.user_id == uid && x.file_hash == fh) = true := by
          have hne := huniq.1 d hmem
          simp only [Bool.and_eq_true, beq_iff_eq, not_and]
          intro _ hxh
          exact hne (hxh.trans hdh.symm)
        rw [List.filter_cons, if_neg hxne]
        exact ih huniq.2 hmem

/-- cleanup_temp never touches the document table. -/
theorem cleanup_temp_docs (env : UploadEnv) (w : World) :
    (cleanup_temp env w).docs = w.docs := by
  unfold cleanup_temp
  split
  · split <;> rfl
  · rfl

/-- The UNIQUE file_hash invariant is inductive for the upload pipeline:
every exit of upload_file either leaves the document table unchanged or
appends one row whose content hash the INSERT guard has just checked to
be absent, so pairwise-distinct hashes are preserved.  This justifies
taking hashesDistinct as a hypothesis about reachable worlds. -/
theorem upload_preserves_hashesDistinct (env : UploadEnv) (uid filename : String)
    (fileSize embedding_size : Nat) (w : World)
    (huniq : hashesDistinct w.docs) :
    hashesDistinct ((upload_file env uid filename fileSize embedding_size w).2).docs := by
  have hbody : ∀ w1 : World, w1.docs = w.docs →
      hashesDistinct ((uploadProcess env uid filename fileSize embedding_size w1).2).docs := by
    intro w1 hw1
    unfold uploadProcess
    repeat' (first | split | dsimp only)
    all_goals try (show hashesDistinct w1.docs; rw [hw1]; exact huniq)
    all_goals
      rename ¬ (!env.insertOk || _) = true => hcond
      show hashesDistinct (w1.docs ++ _)
      rw [hw1]
      rw [hw1] at hcond
      unfold hashesDistinct
      rw [List.pairwise_append]
      refine ⟨huniq, List.pairwise_singleton _ _, ?_⟩
      intro a ha b hb
      rw [List.mem_singleton.mp hb]
      intro hah
      apply hcond
      rw [Bool.or_eq_true]
      right
      rw [List.any_eq_true]
      exact ⟨a, ha, by simp [hah]⟩
  unfold upload_file
  split
  · exact huniq
  · split
    · exact huniq
    · split
      · split
        · exact huniq
        · simp only [uploadBody, cleanup_temp_docs]
          exact hbody _ rfl
      · exact huniq

/-- C4: when the duplicate check runs and a document of the same user
with the same content hash is already recorded — under the schema
invariant that content hashes are unique, so the lookup finds exactly
that row — the upload short-circuits as a success, returns the chunk
count of that document unchanged, and leaves the whole world (relational
store, vector store, filesystem) exactly as it was: no parsing,
embedding, namespace provisioning or vector write occurs, whatever the
parse, encode and insert effects would have done. -/
theorem duplicate_upload_short_circuits (env : UploadEnv) (uid filename : String)
    (fileSize embedding_size : Nat) (w : World) (d : DocMeta) (fh : String)
    (hname : ¬ filename = "")
    (hsize : ¬ 10 * 1024 * 1024 < fileSize)
    (hext : supported_types.contains (extension_of filename) = true)
    (hsave : env.save = .ok ())
    (hhash : env.hashFile = .ok fh)
    (hded : env.dedupOk = true)
    (huniq : hashesDistinct w.docs)
    (hd : d ∈ w.docs) (hdu : d.user_id = uid) (hdh : d.file_hash = fh)
    (hrm : env.removeTemp = .ok ())
    (hfs : w.fsTempExists = false) :
    upload_file env uid filename fileSize embedding_size w
      = (.ok ⟨filename, dupMessage d, d.chunks_count⟩, w) := by
  have hdup := filter_dup_eq_singleton w.docs uid fh d huniq hd hdu hdh
  unfold upload_file
  rw [if_neg hname, if_neg hsize, if_pos hext, hsave]
  unfold uploadBody uploadProcess
  simp only [hhash, hded, if_true, hdup]
  unfold cleanup_temp
  simp only [if_true]
  rw [hrm]
  simp only [world_reset_eq w hfs]

/-- The single recorded document used by the duplicate fixtures. -/
def dupDoc : DocMeta := ⟨"u1", "a.txt", 5, 1, "h1", "t0"⟩

/-- A world in which user u1 already has dupDoc recorded. -/
def dupWorld : World := ⟨false, [dupDoc], ⟨[], false⟩, "t1"⟩

/-- C4 witness: re-uploading content with the hash of the recorded
document short-circuits and changes nothing. -/
theorem duplicate_upload_short_circuits_witness :
    okUploadEnv.hashFile = .ok "h1" ∧
    hashesDistinct dupWorld.docs ∧ dupDoc ∈ dupWorld.docs ∧
    upload_file okUploadEnv "u1" "a.txt" 5 2 dupWorld
      = (.ok ⟨"a.txt", dupMessage dupDoc, 1⟩, dupWorld) :=
  ⟨rfl, List.pairwise_singleton _ _, by decide,
    duplicate_upload_short_circuits okUploadEnv "u1" "a.txt" 5 2 dupWorld dupDoc "h1"
      (by decide) (by decide) (by decide) rfl rfl rfl (List.pairwise_singleton _ _)
      (by decide) rfl rfl rfl rfl⟩

/-- Unfolding equation of slideFuel at positive fuel and non-empty input. -/
theorem slideFuel_cons (w step fuel : Nat) (c : Char) (cs : List Char) :
    slideFuel w step (fuel + 1) (c :: cs) =
      if cs.length + 1 ≤ w then [c :: cs]
      else ((c :: cs).take w) :: slideFuel w step fuel ((c :: cs).drop (max 1 step)) := rfl

/-- A character-list slide always yields a chunk for a non-empty input. -/
theorem slide_ne_nil (w step : Nat) (c : Char) (cs : List Char) :
    ¬ slide w step (c :: cs) = [] := by
  show ¬ slideFuel w step ((c :: cs).length) (c :: cs) = []
  rw [List.length_cons, slideFuel_cons]
  split <;> simp

/-- split_text of a text that is not whitespace-only is non-empty. -/
theorem split_text_ne_nil (w ov : Nat) (text : String) (h : ¬ pyStrip text = "") :
    ¬ split_text w ov text = [] := by
  unfold split_text
  rw [if_neg h]
  match htl : text.toList with
  | [] =>
      exfalso
      apply h
      have : text = "" := by
        cases text
        simp only [String.toList] at htl
        simp [htl]
      rw [this]
      rfl
  | c :: cs => simp [slide_ne_nil]

/-- chunk_text of a text that is not whitespace-only is non-empty. -/
theorem chunk_text_ne_nil (text : String) (h : ¬ pyStrip text = "") :
    ¬ chunk_text text = [] :=
  split_text_ne_nil 1000 200 text h

/-- C8: if the vectors are already stored and the metadata INSERT then
fails, the upload is still reported successful with the chunk count, the
vector write is NOT rolled back (the final vector store is exactly the
post-upsert state vs2), and the only difference from the fully
successful run is the missing metadata row. -/
theorem metadata_write_failure_not_fatal (env : UploadEnv) (uid filename text : String)
    (fileSize embedding_size : Nat) (w : World) (fh : String) (embs : List Vec)
    (vs1 vs2 : QdrantClient) (nm : String)
    (hname : ¬ filename = "")
    (hsize : ¬ 10 * 1024 * 1024 < fileSize)
    (hext : supported_types.contains (extension_of filename) = true)
    (hsave : env.save = .ok ())
    (hhash : env.hashFile = .ok fh)
    (hded : env.dedupOk = true)
    (hnodup : w.docs.filter (fun dd => dd.user_id == uid && dd.file_hash == fh) = [])
    (hparse : env.parse = .ok text)
    (htext : ¬ pyStrip text = "")
    (hencode : env.encode (chunk_text text) = .ok embs)
    (hensure : ensure_user_collection_exists w.vs uid embedding_size = .ok (vs1, nm))
    (hupsert : upsert_vectors vs1 nm embs
        ((chunk_text text).map (fun ch => Payload.mk ch filename uid w.now)) = .ok vs2)
    (hins : env.insertOk = false)
    (hrm : env.removeTemp = .ok ()) :
    upload_file env uid filename fileSize embedding_size w
      = (.ok ⟨filename, uploadSuccessMessage, (chunk_text text).length⟩,
         ⟨false, w.docs, vs2, w.now⟩) := by
  have hch := chunk_text_ne_nil text htext
  unfold upload_file
  rw [if_neg hname, if_neg hsize, if_pos hext, hsave]
  unfold uploadBody uploadProcess
  simp only [hhash, hded, if_true, hnodup, hparse, htext, if_false, hch,
    hencode, hensure, hupsert, hins, Bool.not_false, Bool.true_or]
  unfold cleanup_temp
  simp only [if_true]
  rw [hrm]

/-- okUploadEnv with a failing metadata INSERT. -/
def metaFailEnv : UploadEnv :=
  ⟨.ok (), .ok "h1", true, .ok "hello",
   fun chs => .ok (chs.map (fun _ => ([1, 0] : Vec))), false, .ok ()⟩

/-- The intermediate client after provisioning user_u1 on an empty store. -/
def vsProvisioned : QdrantClient := ⟨[("user_u1", ⟨2, []⟩)], false⟩

/-- The vector store after provisioning user_u1 and upserting the single
chunk of "hello" with the given upload timestamp. -/
def vsAfterHello (ts : String) : QdrantClient :=
  ⟨[("user_u1", ⟨2, [⟨0, [1, 0], ⟨"hello", "a.txt", "u1", ts⟩⟩]⟩)], false⟩

/-- C8 witness: a concrete run in which the vectors are stored, the
metadata INSERT fails, and the upload still reports success with the
chunk count while the vector write survives. -/
theorem metadata_write_failure_not_fatal_witness :
    metaFailEnv.insertOk = false ∧
    upload_file metaFailEnv "u1" "a.txt" 5 2 freshWorld
      = (.ok ⟨"a.txt", uploadSuccessMessage, 1⟩, ⟨false, [], vsAfterHello "t0", "t0"⟩) :=
  ⟨rfl,
    metadata_write_failure_not_fatal metaFailEnv "u1" "a.txt" "hello" 5 2 freshWorld "h1"
      [[1, 0]] vsProvisioned (vsAfterHello "t0") "user_u1"
      (by decide) (by decide) (by decide) rfl rfl rfl (by rfl) rfl (by decide)
      (by rfl) (by rfl) (by rfl) rfl rfl⟩

/-- C10 amended: when the duplicate-check SELECT itself raises, the
error is swallowed (logged) and the pipeline proceeds as a fresh
ingestion — it parses, embeds and re-upserts the vectors (which reuse
point ids 0..n-1 and therefore overwrite rather than duplicate) — but it
CANNOT produce a second stored metadata copy: because a row with this
content hash is already recorded, the INSERT violates the UNIQUE
file_hash constraint (database.py line 75), raises IntegrityError, and
is rolled back and logged (main.py lines 385-388), so the document table
is left unchanged while the upload still reports success with the fresh
chunk count. -/
theorem dedup_outage_reingests_without_second_copy (env : UploadEnv)
    (uid filename text : String) (fileSize embedding_size : Nat) (w : World) (fh : String)
    (embs : List Vec) (vs1 vs2 : QdrantClient) (nm : String) (d : DocMeta)
    (hname : ¬ filename = "")
    (hsize : ¬ 10 * 1024 * 1024 < fileSize)
    (hext : supported_types.contains (extension_of filename) = true)
    (hsave : env.save = .ok ())
    (hhash : env.hashFile = .ok fh)
    (hded : env.dedupOk = false)
    (hd : d ∈ w.docs) (hdh : d.file_hash = fh)
    (hparse : env.parse = .ok text)
    (htext : ¬ pyStrip text = "")
    (hencode : env.encode (chunk_text text) = .ok embs)
    (hensure : ensure_user_collection_exists w.vs uid embedding_size = .ok (vs1, nm))
    (hupsert : upsert_vectors vs1 nm embs
        ((chunk_text text).map (fun ch => Payload.mk ch filename uid w.now)) = .ok vs2)
    (hrm : env.removeTemp = .ok ()) :
    upload_file env uid filename fileSize embedding_size w
      = (.ok ⟨filename, uploadSuccessMessage, (chunk_text text).length⟩,
         ⟨false, w.docs, vs2, w.now⟩) := by
  have hch := chunk_text_ne_nil text htext
  have hany : w.docs.any (fun dd => dd.file_hash == fh) = true := by
    rw [List.any_eq_true]
    exact ⟨d, hd, by simp [hdh]⟩
  unfold upload_file
  rw [if_neg hname, if_neg hsize, if_pos hext, hsave]
  unfold uploadBody uploadProcess
  simp only [hhash, hded, Bool.false_eq_true, if_false, hparse, htext, hch,
    hencode, hensure, hupsert, hany, Bool.or_true, if_true]
  unfold cleanup_temp
  simp only [if_true]
  rw [hrm]

/-- okUploadEnv with the duplicate-check SELECT raising. -/
def dedupFailEnv : UploadEnv :=
  ⟨.ok (), .ok "h1", false, .ok "hello",
   fun chs => .ok (chs.map (fun _ => ([1, 0] : Vec))), true, .ok ()⟩

/-- A consistent re-upload world: user u1 has dupDoc (hash h1) recorded
and its vector already stored; the request timestamp equals the stored
one so the re-upserted point is literally identical. -/
def reUploadWorld : World := ⟨false, [dupDoc], vsAfterHello "t0", "t0"⟩

/-- C10 counterexample: the canonical dedup-outage re-upload — the
duplicate-check SELECT raises while the same content is already recorded
and stored — succeeds as a fresh ingestion but produces NO second stored
copy of the content: the final world (document table AND vector store)
is exactly the initial one, refuting the claim that a dedup-check outage
can produce a second stored copy of identical content. -/
theorem dedup_outage_no_second_copy_counterexample :
    dedupFailEnv.dedupOk = false ∧ dedupFailEnv.insertOk = true ∧
    upload_file dedupFailEnv "u1" "a.txt" 5 2 reUploadWorld
      = (.ok ⟨"a.txt", uploadSuccessMessage, 1⟩, reUploadWorld) :=
  ⟨rfl, rfl, by rfl⟩

/-- C10 amended, witness: the same canonical run obtained by applying
the amended theorem at the concrete input. -/
theorem dedup_outage_reingests_without_second_copy_witness :
    dedupFailEnv.dedupOk = false ∧
    dupDoc ∈ reUploadWorld.docs ∧ dupDoc.file_hash = "h1" ∧
    upload_file dedupFailEnv "u1" "a.txt" 5 2 reUploadWorld
      = (.ok ⟨"a.txt", uploadSuccessMessage, 1⟩,
         ⟨false, [dupDoc], vsAfterHello "t0", "t0"⟩) :=
  ⟨rfl, by decide, rfl,
    dedup_outage_reingests_without_second_copy dedupFailEnv "u1" "a.txt" "hello" 5 2
      reUploadWorld "h1" [[1, 0]] (vsAfterHello "t0") (vsAfterHello "t0") "user_u1" dupDoc
      (by decide) (by decide) (by decide) rfl rfl rfl (by decide) rfl rfl
      (by decide) (by rfl) (by rfl) (by rfl) rfl⟩

/-- A healthy one-point store and world for the query witness. -/
def okClient : QdrantClient := ⟨[("user_u1", ⟨2, [⟨0, [1, 0], pA⟩]⟩)], false⟩

/-- The query-witness world: one recorded document and okClient. -/
def okWorld : World := ⟨false, [dupDoc], okClient, "t1"⟩

/-- A query environment whose embedding and model calls succeed. -/
def okQueryEnv : QueryEnv := ⟨.ok [1, 0], true, fun _ => .ok "grounded answer"⟩

/-- The response produced by the query witness run. -/
def okResp : QueryResponse := ⟨"grounded answer", [⟨"a.txt", "alpha", 1⟩]⟩

/-- The single cited source of the query witness run. -/
def okSource : SourceDoc := ⟨"a.txt", "alpha", 1⟩

/-- C1 witness: a concrete successful query whose one citation is traced
back to a search-result payload owned by the requesting user u1. -/
theorem query_sources_owned_by_requester_witness :
    query_knowledge_base okQueryEnv okWorld "u1" "q" = .ok okResp ∧
    (∃ qv r p,
      okQueryEnv.encodeQuery = .ok qv ∧
      r ∈ search_vectors okWorld.vs (get_user_collection_name "u1") qv 3 ∧
      r.payload = some p ∧ p.user_id = "u1" ∧
      okSource.source = p.source ∧ okSource.text = truncate_text p.text ∧
      okSource.score = r.score) :=
  ⟨by rfl,
    query_sources_owned_by_requester okQueryEnv okWorld "u1" "q" okResp (by rfl)
      okSource (by decide)⟩

/-- Every character of the input lands in at least one window produced
by slideFuel, given enough fuel, a positive step and step ≤ window. -/
theorem slideFuel_covers (w step : Nat) (hstep : 0 < step) (hsw : step ≤ w) :
    ∀ (fuel : Nat) (cs : List Char), cs.length ≤ fuel →
      ∀ a ∈ cs, ∃ ch ∈ slideFuel w step fuel cs, a ∈ ch := by
  intro fuel
  induction fuel with
  | zero =>
      intro cs hlen a ha
      have hnil : cs = [] := List.length_eq_zero.mp (Nat.le_zero.mp hlen)
      subst hnil
      cases ha
  | succ n ih =>
      intro cs hlen a ha
      cases cs with
      | nil => cases ha
      | cons c cs2 =>
          rw [slideFuel_cons]
          by_cases hle : cs2.length + 1 ≤ w
          · rw [if_pos hle]
            exact ⟨c :: cs2, List.mem_singleton.mpr rfl, ha⟩
          · rw [if_neg hle, Nat.max_eq_right hstep]
            by_cases haw : a ∈ (c :: cs2).take w
            · exact ⟨(c :: cs2).take w, List.mem_cons_self _ _, haw⟩
            · have ha2 : a ∈ (c :: cs2).take step ++ (c :: cs2).drop step := by
                rw [List.take_append_drop]
                exact ha
              rcases List.mem_append.mp ha2 with h | h
              · exfalso
                apply haw
                have heq : ((c :: cs2).take w).take step = (c :: cs2).take step := by
                  rw [List.take_take, Nat.min_eq_left hsw]
                rw [← heq] at h
                exact List.take_subset _ _ h
              · have hlen2 : ((c :: cs2).drop step).length ≤ n := by
                  simp only [List.length_drop, List.length_cons]
                  simp only [List.length_cons] at hlen
                  omega
                obtain ⟨ch, hch, hach⟩ := ih ((c :: cs2).drop step) hlen2 a h
                exact ⟨ch, List.mem_cons_of_mem _ hch, hach⟩

/-- Coverage for slide itself. -/
theorem slide_covers (w step : Nat) (hstep : 0 < step) (hsw : step ≤ w)
    (cs : List Char) : ∀ a ∈ cs, ∃ ch ∈ slide w step cs, a ∈ ch :=
  slideFuel_covers w step hstep hsw cs.length cs (Nat.le_refl _)

/-- C7 amended: with overlap < windowSize, chunking is deterministic
(same text and parameters give the same chunk sequence), and for every
text that is NOT whitespace-only, every character of the text appears in
at least one chunk.  (A whitespace-only text is excluded: the Chunker
contract maps it to the empty chunk sequence, so its characters appear
in no chunk.) -/
theorem chunking_deterministic_and_covering (windowSize overlap : Nat) (t1 t2 : String)
    (hov : overlap < windowSize)
    (ht : ¬ pyStrip t1 = "") :
    (t1 = t2 → split_text windowSize overlap t1 = split_text windowSize overlap t2) ∧
    ∀ a ∈ t1.toList, ∃ ch ∈ split_text windowSize overlap t1, a ∈ ch.toList := by
  constructor
  · intro h
    rw [h]
  · intro a ha
    unfold split_text
    rw [if_neg ht]
    have hstep : 0 < windowSize - overlap := by omega
    obtain ⟨ch, hch, hach⟩ :=
      slide_covers windowSize (windowSize - overlap) hstep (Nat.sub_le _ _) t1.toList a ha
    exact ⟨String.mk ch, List.mem_map_of_mem _ hch, hach⟩

/-- C7 witness: concrete parameters (5, 2) and the text "hello world";
chunking is reproducible and the character w of the text appears in one
of the produced chunks. -/
theorem chunking_deterministic_and_covering_witness :
    2 < 5 ∧ ¬ pyStrip "hello world" = "" ∧
    (∃ ch ∈ split_text 5 2 "hello world", 'w' ∈ ch.toList) :=
  ⟨by decide, by decide,
    (chunking_deterministic_and_covering 5 2 "hello world" "hello world"
      (by decide) (by decide)).2 'w' (by decide)⟩

/-- C7 counterexample: the text consisting of one space is non-empty and
the parameters (1000, 200) are valid, yet the chunk sequence is empty,
so its character (the space, code 32) appears in no chunk: the coverage
part of the claim fails for whitespace-only texts, which the Chunker
contract maps to the empty chunk sequence. -/
theorem chunk_whitespace_only_uncovered :
    ¬ (" " : String) = "" ∧ 200 < 1000 ∧ split_text 1000 200 " " = [] ∧
    ¬ ∃ ch ∈ split_text 1000 200 " ", Char.ofNat 32 ∈ ch.toList := by
  refine ⟨by decide, by decide, by rfl, ?_⟩
  rintro ⟨ch, hch, _⟩
  rw [show split_text 1000 200 " " = [] from rfl] at hch
  cases hch

end RagPipeline
